import Mathlib

/-!
A verification development for the snake-game simulation engine
(`src/client/src/game/engine/GameEngine.ts` and `src/client/src/game/utils/helpers.ts`,
with constants from `src/client/src/game/utils/constants.ts`).

The engine is embedded shallowly: every JS `number` that always holds an integer
(coordinates, scores, timestamps in ms) is modelled as `Int`/`Nat`; quantities that
may become fractional (the move interval `currentSpeed`, the time accumulator) are
modelled as `ℚ`; `Math.floor` is `Int.floor` on `ℚ`; the JS remainder operator `%`
(sign of the dividend) is `Int.tmod`.  `Date.now()` and every `Math.random()` draw
are passed in through an explicit `Oracle` record, so each engine method becomes a
pure function of the prior state and the oracle, returning the new state and the
list of events it emitted (the source's `emitEvent` calls, in order).

The engine's `spatialGrid` is not part of the modelled state: in the source it is
cleared and re-inserted into by `updateSpatialGrid` but never queried by any of the
game-logic paths (collision checks iterate the entity arrays directly), so it is
write-only derived state with no observable effect.
-/

namespace SnakeGame

/-- `Position` from `types/index.ts`: integer pair. -/
structure Pos where
  x : Int
  y : Int
deriving DecidableEq

/-- `Direction` from `types/index.ts` (components are -1, 0 or 1 in the source). -/
structure Dir where
  x : Int
  y : Int
deriving DecidableEq

/-- `DIRECTIONS.UP` from `constants.ts`. -/
def DIR_UP : Dir := ⟨0, -1⟩
/-- `DIRECTIONS.DOWN` from `constants.ts`. -/
def DIR_DOWN : Dir := ⟨0, 1⟩
/-- `DIRECTIONS.LEFT` from `constants.ts`. -/
def DIR_LEFT : Dir := ⟨-1, 0⟩
/-- `DIRECTIONS.RIGHT` from `constants.ts`. -/
def DIR_RIGHT : Dir := ⟨1, 0⟩

/-- `positionsEqual` from `helpers.ts`. -/
def positionsEqual (pos1 pos2 : Pos) : Bool :=
  pos1.x == pos2.x && pos1.y == pos2.y

/-- `isInBounds` from `helpers.ts`. -/
def isInBounds (pos : Pos) (gridSize : Int) : Bool :=
  0 ≤ pos.x && pos.x < gridSize && 0 ≤ pos.y && pos.y < gridSize

/-- `areOppositeDirections` from `helpers.ts`. -/
def areOppositeDirections (dir1 dir2 : Dir) : Bool :=
  dir1.x == -dir2.x && dir1.y == -dir2.y

/-- `calculateScore` from `helpers.ts`:
`Math.floor(baseScore * combo * (1 + level * 0.1))`, with the arithmetic taken
exactly (over `ℚ`, the literal `0.1` being `1/10`). -/
def calculateScore (baseScore combo level : Int) : Int :=
  ⌊(baseScore : ℚ) * (combo : ℚ) * (1 + (level : ℚ) * (1/10))⌋

/-- `calculateLevel` from `helpers.ts`: `Math.floor(score / threshold) + 1`. -/
def calculateLevel (score threshold : Int) : Int :=
  ⌊(score : ℚ) / (threshold : ℚ)⌋ + 1

inductive Difficulty
  | easy
  | normal
  | hard
  | insane
deriving DecidableEq

inductive GameMode
  | classic
  | arcade
  | survival
  | challenge
  | multiplayer
deriving DecidableEq

/-- `GameState` from `types/index.ts`. -/
inductive GState
  | menu
  | playing
  | paused
  | gameOver
  | loading
deriving DecidableEq

/-- `PowerUpType` from `types/index.ts` (8 kinds). -/
inductive PowerUpType
  | speed
  | slow
  | ghost
  | invincible
  | double
  | shrink
  | magnet
  | freeze
deriving DecidableEq

inductive FoodKind
  | normal
  | bonus
  | golden
deriving DecidableEq

inductive ObstacleKind
  | static
  | moving
deriving DecidableEq

-- Constants from `constants.ts`.
def INITIAL_SNAKE_LENGTH : Nat := 3
def COMBO_TIME_WINDOW : Int := 2000
def MAX_COMBO : Int := 20
def POWER_UP_DURATION : Int := 5000
def POWER_UP_SPAWN_CHANCE : ℚ := 2/10
def BASE_FOOD_SCORE : Int := 10
def LEVEL_UP_THRESHOLD : Int := 100

/-- One row of `SPEED_CONFIG` from `constants.ts`. -/
structure SpeedCfg where
  initial : ℚ
  increment : ℚ
  min : ℚ
deriving DecidableEq

/-- `SPEED_CONFIG` from `constants.ts`. -/
def SPEED_CONFIG : Difficulty → SpeedCfg
  | .easy => ⟨150, 3, 80⟩
  | .normal => ⟨100, 4, 50⟩
  | .hard => ⟨70, 5, 30⟩
  | .insane => ⟨40, 3, 15⟩

/-- `INITIAL_LIVES` from `constants.ts`. -/
def INITIAL_LIVES : Difficulty → Int
  | .easy => 5
  | .normal => 3
  | .hard => 2
  | .insane => 1

/-- One row of `OBSTACLE_CONFIG` from `constants.ts`. -/
structure ObstacleCfg where
  count : Int
  movingChance : ℚ
deriving DecidableEq

/-- `OBSTACLE_CONFIG` from `constants.ts`. -/
def OBSTACLE_CONFIG : GameMode → ObstacleCfg
  | .classic => ⟨0, 0⟩
  | .arcade => ⟨5, 3/10⟩
  | .survival => ⟨8, 5/10⟩
  | .challenge => ⟨10, 4/10⟩
  | .multiplayer => ⟨6, 3/10⟩

/-- `Snake` from `types/index.ts`.  Note the separate `length` field: in the source
it is a plain number field, distinct from `segments.length`. -/
structure SnakeEnt where
  segments : List Pos
  direction : Dir
  nextDirection : Dir
  length : Nat
deriving DecidableEq

/-- `Food` from `types/index.ts`. -/
structure Food where
  position : Pos
  value : Int
  kind : FoodKind
deriving DecidableEq

/-- `PowerUp` from `types/index.ts` (the string `id` is modelled as `Nat`). -/
structure PowerUp where
  id : Nat
  ptype : PowerUpType
  position : Pos
  lifetime : Int
  createdAt : Int
deriving DecidableEq

/-- `ActivePowerUp` from `types/index.ts`. -/
structure ActivePowerUp where
  ptype : PowerUpType
  duration : Int
  startTime : Int
deriving DecidableEq

/-- `Obstacle` from `types/index.ts`. -/
structure Obstacle where
  id : Nat
  position : Pos
  kind : ObstacleKind
  movingDirection : Option Dir
deriving DecidableEq

/-- `GameStats` from `types/index.ts`. -/
structure GameStats where
  score : Int
  level : Int
  lives : Int
  combo : Int
  foodEaten : Int
  powerUpsCollected : Int
  timeElapsed : ℚ
  highScore : Int
deriving DecidableEq

/-- The engine-relevant part of `GameConfig` from `types/index.ts`: `gridSize`,
`difficulty` and `mode` are the only configuration fields the engine logic reads
(`cellSize`, `theme`, the speed fields and the sound flags are rendering/UI
pass-through, never consulted by `GameEngine`). -/
structure GameConfig where
  gridSize : Int
  difficulty : Difficulty
  mode : GameMode
deriving DecidableEq

/-- The private mutable fields of `GameEngine` that the game logic reads or writes. -/
structure EngineState where
  state : GState
  config : GameConfig
  snake : SnakeEnt
  food : Option Food
  powerUps : List PowerUp
  obstacles : List Obstacle
  activePowerUp : Option ActivePowerUp
  stats : GameStats
  lastFoodTime : Int
  moveAccumulator : ℚ
  currentSpeed : ℚ
  frameCount : Nat
deriving DecidableEq

/-- `GameEvent` from `types/index.ts`, restricted to the events the engine emits. -/
inductive Event
  | foodEaten (position : Pos) (points : Int)
  | powerUpCollected (powerUp : PowerUp)
  | collision (collisionType : String)
  | levelUp (level : Int)
  | gameOver (stats : GameStats)
deriving DecidableEq

/-- The oracle supplying `Date.now()` and the `Math.random()` draws consumed during
one engine call.  Random positions are chosen as `Math.floor(r * length)` with the
raw draw `r` provided here; obstacle generation consumes one draw per loop
iteration, indexed by the iteration counter. -/
structure Oracle where
  now : Int
  foodPosRand : ℚ
  foodTypeRand : ℚ
  puSpawnRand : ℚ
  puPosRand : ℚ
  puTypeRand : ℚ
  puId : Nat
  obsPosRand : Nat → ℚ
  obsMoveRand : Nat → ℚ
  obsDirRand : Nat → ℚ
  obsId : Nat → Nat

/-- The snake segment list built by the constructor / `reset` /
`resetSnakePosition`:
`Array.from({length: INITIAL_SNAKE_LENGTH}, (_, i) => ({x: center - i, y: center}))`
with `center = Math.floor(gridSize / 2)`. -/
def initialSegments (gridSize : Int) : List Pos :=
  let center := gridSize / 2
  (List.range INITIAL_SNAKE_LENGTH).map (fun i => ⟨center - (i : Int), center⟩)

/-- The `GameEngine` constructor. -/
def mkEngine (config : GameConfig) : EngineState :=
  { state := GState.menu
    config := config
    snake := { segments := initialSegments config.gridSize
               direction := DIR_RIGHT
               nextDirection := DIR_RIGHT
               length := INITIAL_SNAKE_LENGTH }
    food := Option.none
    powerUps := []
    obstacles := []
    activePowerUp := Option.none
    stats := { score := 0, level := 1, lives := INITIAL_LIVES config.difficulty
               combo := 1, foodEaten := 0, powerUpsCollected := 0
               timeElapsed := 0, highScore := 0 }
    lastFoodTime := 0
    moveAccumulator := 0
    currentSpeed := (SPEED_CONFIG config.difficulty).initial
    frameCount := 0 }

/-- `CollisionResult` from `types/index.ts`, as a tagged variant: the source's
`{type, position?, data?}` record populates `data` exactly for the food, power-up
and obstacle outcomes. -/
inductive CollisionResult
  | wall (position : Pos)
  | self (position : Pos)
  | food (position : Pos) (data : Food)
  | powerup (position : Pos) (data : PowerUp)
  | obstacle (position : Pos) (data : Obstacle)
  | none
deriving DecidableEq

/-- The `type` field of a `CollisionResult`. -/
inductive CollisionTag
  | wall
  | self
  | food
  | powerup
  | obstacle
  | none
deriving DecidableEq

def CollisionResult.tag : CollisionResult → CollisionTag
  | .wall _ => .wall
  | .self _ => .self
  | .food _ _ => .food
  | .powerup _ _ => .powerup
  | .obstacle _ _ => .obstacle
  | .none => .none

/-- The power-up and obstacle checks at the end of `checkCollision` (the two
`for` loops return on the first matching element, i.e. `List.find?`). -/
def checkCollisionAfterFood (st : EngineState) (pos : Pos) : CollisionResult :=
  match st.powerUps.find? (fun powerUp => positionsEqual pos powerUp.position) with
  | some p => .powerup pos p
  | Option.none =>
    match st.obstacles.find? (fun obstacle => positionsEqual pos obstacle.position) with
    | some o => .obstacle pos o
    | Option.none => .none

/-- `checkCollision` from `GameEngine.ts`: walls, then self (first matching
segment), then food, then power-ups, then obstacles, else none. -/
def checkCollision (st : EngineState) (pos : Pos) : CollisionResult :=
  if !(isInBounds pos st.config.gridSize) then .wall pos
  else if st.snake.segments.any (fun segment => positionsEqual pos segment) then .self pos
  else
    match st.food with
    | some f =>
      if positionsEqual pos f.position then .food pos f
      else checkCollisionAfterFood st pos
    | Option.none => checkCollisionAfterFood st pos

/-- `wrapPosition` from `GameEngine.ts`:
`((pos.x % gridSize) + gridSize) % gridSize` on each axis, with JS `%` = `Int.tmod`. -/
def wrapPosition (pos : Pos) (gridSize : Int) : Pos :=
  { x := (pos.x.tmod gridSize + gridSize).tmod gridSize
    y := (pos.y.tmod gridSize + gridSize).tmod gridSize }

/-- `resetSnakePosition` from `GameEngine.ts`: rebuilds `segments` and the two
direction fields; it does not touch the snake's `length` field. -/
def resetSnakePosition (st : EngineState) : EngineState :=
  { st with snake := { st.snake with
      segments := initialSegments st.config.gridSize
      direction := DIR_RIGHT
      nextDirection := DIR_RIGHT } }

/-- `gameOver` from `GameEngine.ts`: enter the terminal state and emit
`GAME_OVER` carrying `{ ...this.stats }`. -/
def gameOver (st : EngineState) : EngineState × List Event :=
  let st := { st with state := GState.gameOver }
  (st, [Event.gameOver st.stats])

/-- `handleDeath` from `GameEngine.ts`. -/
def handleDeath (st : EngineState) : EngineState × List Event :=
  let st := { st with stats := { st.stats with lives := st.stats.lives - 1 } }
  let evs := [Event.collision "death"]
  if st.stats.lives ≤ 0 then
    let r := gameOver st
    (r.1, evs ++ r.2)
  else
    (resetSnakePosition st, evs)

/-- The occupancy test inside `getAvailablePositions`. -/
def isOccupied (st : EngineState) (pos : Pos) : Bool :=
  st.snake.segments.any (fun s => positionsEqual s pos)
  || (match st.food with
      | some f => positionsEqual f.position pos
      | Option.none => false)
  || st.powerUps.any (fun p => positionsEqual p.position pos)
  || st.obstacles.any (fun o => positionsEqual o.position pos)

/-- `getAvailablePositions` from `GameEngine.ts`: scan x (outer) and y (inner)
over `[0, gridSize)`, collecting unoccupied cells. -/
def getAvailablePositions (st : EngineState) : List Pos :=
  (List.range st.config.gridSize.toNat).flatMap (fun x =>
    (List.range st.config.gridSize.toNat).filterMap (fun y =>
      let pos : Pos := ⟨(x : Int), (y : Int)⟩
      if isOccupied st pos then Option.none else some pos))

/-- `Math.floor(r * len)` used to pick a random array index. -/
def randomIndex (r : ℚ) (len : Nat) : Nat :=
  (⌊r * (len : ℚ)⌋).toNat

/-- `spawnFood` from `GameEngine.ts` (thresholds 0.05 and 0.2 taken exactly). -/
def spawnFood (st : EngineState) (o : Oracle) : EngineState :=
  let availablePositions := getAvailablePositions st
  if availablePositions.length = 0 then st
  else
    let position := availablePositions.getD
      (randomIndex o.foodPosRand availablePositions.length) ⟨0, 0⟩
    let kv : FoodKind × Int :=
      if o.foodTypeRand < 5/100 then (FoodKind.golden, 100)
      else if o.foodTypeRand < 2/10 then (FoodKind.bonus, 50)
      else (FoodKind.normal, BASE_FOOD_SCORE)
    { st with food := some { position := position, value := kv.2, kind := kv.1 } }

/-- `Object.values(PowerUpType)` in declaration order. -/
def powerUpTypes : List PowerUpType :=
  [.speed, .slow, .ghost, .invincible, .double, .shrink, .magnet, .freeze]

/-- `spawnPowerUp` from `GameEngine.ts`. -/
def spawnPowerUp (st : EngineState) (o : Oracle) : EngineState :=
  if st.powerUps.length ≥ 3 then st
  else
    let availablePositions := getAvailablePositions st
    if availablePositions.length = 0 then st
    else
      let position := availablePositions.getD
        (randomIndex o.puPosRand availablePositions.length) ⟨0, 0⟩
      let ptype := powerUpTypes.getD (randomIndex o.puTypeRand powerUpTypes.length) .speed
      { st with powerUps := st.powerUps ++
          [{ id := o.puId, ptype := ptype, position := position
             lifetime := 10000, createdAt := o.now }] }

/-- `getRandomDirection` from `GameEngine.ts`. -/
def getRandomDirection (r : ℚ) : Dir :=
  [DIR_UP, DIR_DOWN, DIR_LEFT, DIR_RIGHT].getD (randomIndex r 4) DIR_UP

/-- The `for` loop of `generateObstacles`: each iteration recomputes the free
cells (so earlier obstacles of the same batch are excluded), stops early when the
grid is full, and otherwise appends one obstacle. -/
def generateObstaclesLoop (o : Oracle) (movingChance : ℚ) :
    Nat → Nat → EngineState → EngineState
  | 0, _, st => st
  | n + 1, i, st =>
    let availablePositions := getAvailablePositions st
    if availablePositions.length = 0 then st
    else
      let position := availablePositions.getD
        (randomIndex (o.obsPosRand i) availablePositions.length) ⟨0, 0⟩
      let isMoving := o.obsMoveRand i < movingChance
      let ob : Obstacle :=
        { id := o.obsId i, position := position
          kind := if isMoving then .moving else .static
          movingDirection :=
            if isMoving then some (getRandomDirection (o.obsDirRand i)) else Option.none }
      generateObstaclesLoop o movingChance n (i + 1)
        { st with obstacles := st.obstacles ++ [ob] }

/-- `generateObstacles` from `GameEngine.ts`:
`count = min(config.count + level - 1, 15)`. -/
def generateObstacles (st : EngineState) (o : Oracle) : EngineState :=
  let st := { st with obstacles := [] }
  let obstacleConfig := OBSTACLE_CONFIG st.config.mode
  let count := min (obstacleConfig.count + st.stats.level - 1) 15
  generateObstaclesLoop o obstacleConfig.movingChance count.toNat 0 st

/-- `levelUp` from `GameEngine.ts`. -/
def levelUp (st : EngineState) (newLevel : Int) (o : Oracle) : EngineState × List Event :=
  let st := { st with stats := { st.stats with level := newLevel } }
  let speedConfig := SPEED_CONFIG st.config.difficulty
  let st := { st with currentSpeed :=
      (max (speedConfig.initial - ((newLevel : ℚ) - 1) * speedConfig.increment)
          speedConfig.min) }
  let st := generateObstacles st o
  (st, [Event.levelUp newLevel])

/-- `eatFood` from `GameEngine.ts`.  The source's guard `if (!this.food) return`
is the `Option.none` branch. -/
def eatFood (st : EngineState) (o : Oracle) : EngineState × List Event :=
  match st.food with
  | Option.none => (st, [])
  | some food =>
    let now := o.now
    let combo :=
      if now - st.lastFoodTime < COMBO_TIME_WINDOW then min (st.stats.combo + 1) MAX_COMBO
      else 1
    let st := { st with stats := { st.stats with combo := combo }, lastFoodTime := now }
    let baseScore := food.value
    let points := calculateScore baseScore st.stats.combo st.stats.level
    let st := { st with stats := { st.stats with
        score := st.stats.score + points
        foodEaten := st.stats.foodEaten + 1 } }
    let evs := [Event.foodEaten food.position points]
    let newLevel := calculateLevel st.stats.score LEVEL_UP_THRESHOLD
    let r :=
      if newLevel > st.stats.level then
        let r2 := levelUp st newLevel o
        (r2.1, evs ++ r2.2)
      else (st, evs)
    let st := spawnFood r.1 o
    let st :=
      if st.config.mode = GameMode.arcade ∧ o.puSpawnRand < POWER_UP_SPAWN_CHANCE then
        spawnPowerUp st o
      else st
    (st, r.2)

/-- `collectPowerUp` from `GameEngine.ts`.  `Math.ceil(len / 2)` is `(len + 1) / 2`
and `slice(0, k)` is `List.take k`. -/
def collectPowerUp (st : EngineState) (powerUp : PowerUp) (o : Oracle) :
    EngineState × List Event :=
  let st := { st with stats := { st.stats with
      powerUpsCollected := st.stats.powerUpsCollected + 1 } }
  let st := { st with powerUps := st.powerUps.filter (fun p => p.id != powerUp.id) }
  let st := { st with activePowerUp :=
      (some { ptype := powerUp.ptype, duration := POWER_UP_DURATION, startTime := o.now }) }
  let st :=
    match powerUp.ptype with
    | .double => { st with stats := { st.stats with score := st.stats.score * 2 } }
    | .shrink =>
      if st.snake.segments.length > 3 then
        { st with snake := { st.snake with
            segments := st.snake.segments.take ((st.snake.segments.length + 1) / 2) } }
      else st
    | .speed => { st with currentSpeed := max (st.currentSpeed * (1/2)) 20 }
    | .slow => { st with currentSpeed := min (st.currentSpeed * 2) 300 }
    | _ => st
  (st, [Event.powerUpCollected powerUp])

/-- `updatePowerUps` from `GameEngine.ts`: expire aged pickups, then expire the
active effect once `elapsed ≥ duration`, reversing the speed/slow multiplier. -/
def updatePowerUps (st : EngineState) (o : Oracle) : EngineState :=
  let st := { st with powerUps := st.powerUps.filter (fun p => o.now - p.createdAt < p.lifetime) }
  match st.activePowerUp with
  | Option.none => st
  | some active =>
    let elapsed := o.now - active.startTime
    if elapsed ≥ active.duration then
      let st :=
        if active.ptype = PowerUpType.speed then
          { st with currentSpeed :=
              (min (st.currentSpeed * 2) (SPEED_CONFIG st.config.difficulty).initial) }
        else if active.ptype = PowerUpType.slow then
          { st with currentSpeed :=
              (max (st.currentSpeed * (1/2)) (SPEED_CONFIG st.config.difficulty).initial) }
        else st
      { st with activePowerUp := Option.none }
    else st

/-- The per-obstacle body of `updateObstacles` (each obstacle only reads the
snake, the food and its own fields). -/
def updateObstacle (st : EngineState) (obstacle : Obstacle) : Obstacle :=
  match obstacle.kind, obstacle.movingDirection with
  | .moving, some d =>
    let newPos : Pos := ⟨obstacle.position.x + d.x, obstacle.position.y + d.y⟩
    if !(isInBounds newPos st.config.gridSize) then
      { obstacle with movingDirection := some ⟨-d.x, -d.y⟩ }
    else
      let occupied := st.snake.segments.any (fun s => positionsEqual s newPos)
        || (match st.food with
            | some f => positionsEqual f.position newPos
            | Option.none => false)
      if !occupied then { obstacle with position := newPos }
      else { obstacle with movingDirection := some ⟨-d.x, -d.y⟩ }
  | _, _ => obstacle

/-- `updateObstacles` from `GameEngine.ts`. -/
def updateObstacles (st : EngineState) : EngineState :=
  { st with obstacles := st.obstacles.map (updateObstacle st) }

/-- `this.activePowerUp?.type`. -/
def activeType (st : EngineState) : Option PowerUpType :=
  st.activePowerUp.map (fun a => a.ptype)

/-- The candidate new head of `updateGameLogic`: the current head (index 0)
displaced by the direction applied this tick (`nextDirection`, which
`updateGameLogic` commits into `direction` first). -/
def candidateHead (st : EngineState) : Pos :=
  let currentHead := st.snake.segments.headD ⟨0, 0⟩
  ⟨currentHead.x + st.snake.nextDirection.x, currentHead.y + st.snake.nextDirection.y⟩

/-- `updateGameLogic` from `GameEngine.ts`.  The collision result is computed once
at the pre-wrap candidate head and its tag drives every later branch; `unshift`
is cons and `pop` is `dropLast`. -/
def updateGameLogic (st : EngineState) (o : Oracle) : EngineState × List Event :=
  let st := { st with snake := { st.snake with direction := st.snake.nextDirection } }
  let currentHead := st.snake.segments.headD ⟨0, 0⟩
  let newHead0 : Pos := ⟨currentHead.x + st.snake.direction.x,
                         currentHead.y + st.snake.direction.y⟩
  let collision := checkCollision st newHead0
  if collision.tag = CollisionTag.wall ∧ activeType st ≠ some PowerUpType.ghost then
    handleDeath st
  else
    let newHead :=
      if collision.tag = CollisionTag.wall then wrapPosition newHead0 st.config.gridSize
      else newHead0
    if collision.tag = CollisionTag.self ∧ activeType st ≠ some PowerUpType.invincible then
      handleDeath st
    else if collision.tag = CollisionTag.obstacle
        ∧ activeType st ≠ some PowerUpType.invincible
        ∧ activeType st ≠ some PowerUpType.ghost then
      handleDeath st
    else
      let st := { st with snake := { st.snake with segments := newHead :: st.snake.segments } }
      let r :=
        if collision.tag = CollisionTag.food then eatFood st o
        else ({ st with snake := { st.snake with segments := st.snake.segments.dropLast } }, [])
      match collision with
      | .powerup _ data =>
        let r2 := collectPowerUp r.1 data o
        (r2.1, r.2 ++ r2.2)
      | _ => r

/-- `update` from `GameEngine.ts`. -/
def update (st : EngineState) (deltaTime : ℚ) (o : Oracle) : EngineState × List Event :=
  if st.state ≠ GState.playing then (st, [])
  else
    let st := { st with
        stats := { st.stats with timeElapsed := st.stats.timeElapsed + deltaTime }
        moveAccumulator := st.moveAccumulator + deltaTime }
    let r :=
      if st.moveAccumulator ≥ st.currentSpeed then
        updateGameLogic { st with moveAccumulator := 0 } o
      else (st, [])
    let st := updatePowerUps r.1 o
    let st := if st.frameCount % 10 = 0 then updateObstacles st else st
    ({ st with frameCount := st.frameCount + 1 }, r.2)

/-- `reset` from `GameEngine.ts` (`lastFoodTime = Date.now()` comes from the
oracle; the spread `{...this.stats, ...}` preserves `highScore`). -/
def reset (st : EngineState) (o : Oracle) : EngineState :=
  { st with
    snake := { segments := initialSegments st.config.gridSize
               direction := DIR_RIGHT
               nextDirection := DIR_RIGHT
               length := INITIAL_SNAKE_LENGTH }
    stats := { st.stats with
               score := 0, level := 1, lives := INITIAL_LIVES st.config.difficulty
               combo := 1, foodEaten := 0, powerUpsCollected := 0, timeElapsed := 0 }
    food := Option.none
    powerUps := []
    obstacles := []
    activePowerUp := Option.none
    moveAccumulator := 0
    lastFoodTime := o.now
    currentSpeed := (SPEED_CONFIG st.config.difficulty).initial }

/-- `init` from `GameEngine.ts` (the spatial-grid rebuild is derived state, see
the file header). -/
def init (st : EngineState) (o : Oracle) : EngineState :=
  generateObstacles (spawnFood (reset st o) o) o

/-- `changeDirection` from `GameEngine.ts`. -/
def changeDirection (st : EngineState) (direction : Dir) : EngineState :=
  if areOppositeDirections direction st.snake.direction then st
  else { st with snake := { st.snake with nextDirection := direction } }

/-- `setState` from `GameEngine.ts`. -/
def setState (st : EngineState) (s : GState) : EngineState :=
  { st with state := s }

/-- The collision classification as §4.3 of the spec words it: the first
applicable of — wall (outside `[0, gridSize)` on either axis), self (equals any
current snake segment), food (equals the live food position), power-up (equals a
live power-up position), obstacle (equals an obstacle position) — else none.
Written from the spec's precedence list, to be compared with the source's
`checkCollision`. -/
def classifySpec (st : EngineState) (pos : Pos) : CollisionTag :=
  if ¬ (0 ≤ pos.x ∧ pos.x < st.config.gridSize ∧ 0 ≤ pos.y ∧ pos.y < st.config.gridSize) then
    CollisionTag.wall
  else if pos ∈ st.snake.segments then CollisionTag.self
  else if st.food.map Food.position = some pos then CollisionTag.food
  else if ∃ p ∈ st.powerUps, pos = p.position then CollisionTag.powerup
  else if ∃ ob ∈ st.obstacles, pos = ob.position then CollisionTag.obstacle
  else CollisionTag.none

/-!
JS reference semantics for the snapshot getters.  `getSnake` returns
`{ ...this.snake }`: the spread operator copies the four fields of the snake
object by value, and the value of the `segments` field is a *reference* to an
array.  To express the aliasing this creates, array references are modelled as
addresses into an explicit array store; the engine's `Snake` object holds the
address of its segments array.
-/

/-- An array reference (JS object identity). -/
abbrev Addr := Nat

/-- The store of `Position[]` arrays, by reference. -/
structure ArrayStore where
  arrays : Addr → List Pos

/-- Mutating the array behind a reference (e.g. `arr.length = 0`, `arr.push`,
`arr[i] = v` — any in-place mutation an external reader can perform). -/
def ArrayStore.write (h : ArrayStore) (a : Addr) (v : List Pos) : ArrayStore :=
  ⟨fun b => if b = a then v else h.arrays b⟩

/-- The engine's `this.snake` object: `segments` is a reference to an array in
the store. -/
structure SnakeObj where
  segments : Addr
  direction : Dir
  nextDirection : Dir
  length : Nat
deriving DecidableEq

/-- `getSnake` from `GameEngine.ts`: `return { ...this.snake }` — a fresh
top-level object whose `segments` field copies the array *reference*. -/
def getSnake (s : SnakeObj) : SnakeObj :=
  { segments := s.segments
    direction := s.direction
    nextDirection := s.nextDirection
    length := s.length }

/-- The segments the engine itself sees when it next reads `this.snake.segments`. -/
def readSegments (h : ArrayStore) (s : SnakeObj) : List Pos :=
  h.arrays s.segments

/-- A concrete engine heap: the snake's segments array lives at address 0. -/
def snakeHeap0 : ArrayStore :=
  ⟨fun a => if a = 0 then [⟨12, 12⟩, ⟨11, 12⟩, ⟨10, 12⟩] else []⟩

/-- A concrete engine `this.snake` whose segments array is at address 0. -/
def engineSnake0 : SnakeObj :=
  { segments := 0, direction := DIR_RIGHT, nextDirection := DIR_RIGHT, length := 3 }

/-!  Reachability through the public mutating interface, for the `length`-field
invariant: the constructor produces the initial state, and every later state
arises by `update` (with some elapsed time and oracle), `changeDirection`,
`setState` or `init`. -/

/-- One public mutating call on the engine. -/
inductive EngineCall : EngineState → EngineState → Prop
  | update (st : EngineState) (deltaTime : ℚ) (o : Oracle) :
      EngineCall st (SnakeGame.update st deltaTime o).1
  | changeDirection (st : EngineState) (d : Dir) :
      EngineCall st (SnakeGame.changeDirection st d)
  | setState (st : EngineState) (s : GState) :
      EngineCall st (SnakeGame.setState st s)
  | init (st : EngineState) (o : Oracle) :
      EngineCall st (SnakeGame.init st o)

/-- States reachable from a freshly constructed engine through public calls. -/
inductive Reach : EngineState → Prop
  | mk (config : GameConfig) : Reach (mkEngine config)
  | step {st st' : EngineState} : Reach st → EngineCall st st' → Reach st'

/-- A 25-grid, normal-difficulty, classic-mode configuration. -/
def cfgN : GameConfig := ⟨25, Difficulty.normal, GameMode.classic⟩

/-- A 25-grid, insane-difficulty configuration (1 life). -/
def cfgInsane : GameConfig := ⟨25, Difficulty.insane, GameMode.classic⟩

/-- A fixed oracle for the concrete witnesses. -/
def oracle0 : Oracle :=
  ⟨1000, 0, 1/2, 1, 0, 0, 7, fun _ => 0, fun _ => 1, fun _ => 0, fun i => i⟩

/-- A playing state about to run off the right edge with the ghost effect
active (head at the east wall, facing right, empty wrapped cell). -/
def ghostWallState : EngineState :=
  { mkEngine cfgN with
    state := GState.playing
    snake := { segments := [⟨24, 12⟩, ⟨23, 12⟩, ⟨22, 12⟩]
               direction := DIR_RIGHT, nextDirection := DIR_RIGHT, length := 3 }
    activePowerUp := some ⟨PowerUpType.ghost, 5000, 0⟩ }

/-- Like `ghostWallState`, but the wrapped cell `(0, 12)` simultaneously holds
the live food and an obstacle. -/
def ghostWallOccupiedState : EngineState :=
  { ghostWallState with
    food := some ⟨⟨0, 12⟩, 10, FoodKind.normal⟩
    obstacles := [⟨1, ⟨0, 12⟩, ObstacleKind.static, Option.none⟩] }

/-- A small 10-grid configuration for concrete evaluation. -/
def cfgS : GameConfig := ⟨10, Difficulty.normal, GameMode.classic⟩

/-- A state with live food at `(7, 7)`, a prior pickup at time 0 and combo 4. -/
def foodState : EngineState :=
  { mkEngine cfgS with
    food := some ⟨⟨7, 7⟩, 10, FoodKind.normal⟩
    lastFoodTime := 0
    stats := { (mkEngine cfgS).stats with combo := 4 } }

/-- A speed power-up pickup used by the effect witnesses. -/
def speedPowerUp : PowerUp := ⟨9, PowerUpType.speed, ⟨3, 3⟩, 10000, 0⟩

/-- A slow power-up pickup used by the effect witnesses. -/
def slowPowerUp : PowerUp := ⟨9, PowerUpType.slow, ⟨3, 3⟩, 10000, 0⟩

/-- A state with an active speed effect (started at time 0, duration 5000) and a
halved move interval; the effect has expired once `now` reaches 5000. -/
def speedActiveState : EngineState :=
  { mkEngine cfgN with
    currentSpeed := 50
    activePowerUp := some ⟨PowerUpType.speed, 5000, 0⟩ }

/-- Counterpart of `speedActiveState` for the slow effect. -/
def slowActiveState : EngineState :=
  { mkEngine cfgN with
    currentSpeed := 200
    activePowerUp := some ⟨PowerUpType.slow, 5000, 0⟩ }

/-- `positionsEqual` decides equality of positions. -/
theorem positionsEqual_iff (p q : Pos) : positionsEqual p q = true ↔ p = q := by
  cases p; cases q
  simp [positionsEqual]

/-- The tail of `checkCollision` (power-up then obstacle loops) classifies by
the spec's order. -/
theorem checkCollisionAfterFood_tag (st : EngineState) (pos : Pos) :
    (checkCollisionAfterFood st pos).tag =
      (if ∃ p ∈ st.powerUps, pos = p.position then CollisionTag.powerup
       else if ∃ ob ∈ st.obstacles, pos = ob.position then CollisionTag.obstacle
       else CollisionTag.none) := by
  unfold checkCollisionAfterFood
  cases hp : st.powerUps.find? (fun powerUp => positionsEqual pos powerUp.position) with
  | some p =>
    have hmem := List.mem_of_find?_eq_some hp
    have hpred := List.find?_some hp
    rw [positionsEqual_iff] at hpred
    have hex : ∃ q ∈ st.powerUps, pos = q.position := ⟨p, hmem, hpred⟩
    simp [hex, CollisionResult.tag]
  | none =>
    have hnone := List.find?_eq_none.mp hp
    have hnex : ¬ ∃ q ∈ st.powerUps, pos = q.position := by
      rintro ⟨q, hq, rfl⟩
      exact absurd ((positionsEqual_iff _ _).mpr rfl) (by simpa using hnone q hq)
    cases ho : st.obstacles.find? (fun obstacle => positionsEqual pos obstacle.position) with
    | some ob =>
      have hmem := List.mem_of_find?_eq_some ho
      have hpred := List.find?_some ho
      rw [positionsEqual_iff] at hpred
      have hex : ∃ q ∈ st.obstacles, pos = q.position := ⟨ob, hmem, hpred⟩
      simp [hnex, hex, CollisionResult.tag]
    | none =>
      have hnone2 := List.find?_eq_none.mp ho
      have hnex2 : ¬ ∃ q ∈ st.obstacles, pos = q.position := by
        rintro ⟨q, hq, rfl⟩
        exact absurd ((positionsEqual_iff _ _).mpr rfl) (by simpa using hnone2 q hq)
      simp [hnex, hnex2, CollisionResult.tag]

/-- C1: for every candidate head position the collision classifier returns
exactly one classification — the first applicable in the strict precedence order
wall, self, food, power-up, obstacle, none — so a position coinciding with both
food (or a power-up) and an obstacle is classified as food (or power-up), never
as obstacle: the source's `checkCollision` agrees with the spec's precedence
list `classifySpec` at every state and position. -/
theorem checkCollision_precedence (st : EngineState) (pos : Pos) :
    (checkCollision st pos).tag = classifySpec st pos := by
  have hb_iff : (isInBounds pos st.config.gridSize = true) ↔
      (0 ≤ pos.x ∧ pos.x < st.config.gridSize ∧ 0 ≤ pos.y ∧ pos.y < st.config.gridSize) := by
    simp [isInBounds, and_assoc]
  unfold checkCollision classifySpec
  cases hfb : isInBounds pos st.config.gridSize with
  | false =>
    have hnb : ¬ (0 ≤ pos.x ∧ pos.x < st.config.gridSize
        ∧ 0 ≤ pos.y ∧ pos.y < st.config.gridSize) := by
      rw [← hb_iff, hfb]; simp
    simp [hfb, hnb, CollisionResult.tag]
  | true =>
    have hbp := hb_iff.mp hfb
    by_cases hs : pos ∈ st.snake.segments
    · have hany : (st.snake.segments.any fun segment => positionsEqual pos segment) = true := by
        rw [List.any_eq_true]
        exact ⟨pos, hs, (positionsEqual_iff _ _).mpr rfl⟩
      simp [hfb, hbp, hs, hany, CollisionResult.tag]
    · have hany : (st.snake.segments.any fun segment => positionsEqual pos segment) = false := by
        rw [Bool.eq_false_iff]
        intro hcon
        rcases List.any_eq_true.mp hcon with ⟨q, hq, hpq⟩
        rw [positionsEqual_iff] at hpq
        exact hs (hpq ▸ hq)
      cases hf : st.food with
      | some f =>
        by_cases hfp : pos = f.position
        · have hfp' : f.position = pos := hfp.symm
          have hnex : ¬ ∃ x ∈ st.snake.segments, pos.x = x.x ∧ pos.y = x.y := by
            rintro ⟨q, hq, h1, h2⟩
            have hpq : pos = q := by
              obtain ⟨px, py⟩ := pos
              obtain ⟨qx, qy⟩ := q
              have h1' : px = qx := h1
              have h2' : py = qy := h2
              rw [h1', h2']
            exact hs (hpq ▸ hq)
          simp [hfb, hbp.1, hbp.2.1, hbp.2.2.1, hbp.2.2.2, hs, hany, hf, hfp', hnex,
            positionsEqual, CollisionResult.tag]
        · have hpe : positionsEqual pos f.position = false := by
            rw [Bool.eq_false_iff]
            intro hcon
            exact hfp ((positionsEqual_iff _ _).mp hcon)
          have hmne : ¬ (Food.position f = pos) := fun hc => hfp hc.symm
          simp [hfb, hbp.1, hbp.2.1, hbp.2.2.1, hbp.2.2.2, hs, hany, hf, hpe, hmne,
            checkCollisionAfterFood_tag]
      | none =>
        simp [hfb, hbp.1, hbp.2.1, hbp.2.2.1, hbp.2.2.2, hs, hany, hf,
          checkCollisionAfterFood_tag]

/-- C2: on any lethal collision `handleDeath` decrements lives by exactly one;
if lives remain positive the snake respawns at the initial centered position
facing right while obstacles, food and all stats other than lives and combo are
unchanged and play continues (the game state is not changed); if lives reach
zero the engine enters the terminal GameOver state and emits a GAME_OVER event
whose stats payload equals the stats snapshot at the moment of death (the stats
with the decremented lives). -/
theorem handleDeath_policy (st : EngineState) :
    (handleDeath st).1.stats.lives = st.stats.lives - 1
    ∧ (0 < st.stats.lives - 1 →
        (handleDeath st).1.state = st.state
        ∧ (handleDeath st).1.snake.segments = initialSegments st.config.gridSize
        ∧ (handleDeath st).1.snake.direction = DIR_RIGHT
        ∧ (handleDeath st).1.snake.nextDirection = DIR_RIGHT
        ∧ (handleDeath st).1.obstacles = st.obstacles
        ∧ (handleDeath st).1.food = st.food
        ∧ (handleDeath st).1.powerUps = st.powerUps
        ∧ (handleDeath st).1.activePowerUp = st.activePowerUp
        ∧ (handleDeath st).1.stats.score = st.stats.score
        ∧ (handleDeath st).1.stats.level = st.stats.level
        ∧ (handleDeath st).1.stats.combo = st.stats.combo
        ∧ (handleDeath st).1.stats.foodEaten = st.stats.foodEaten
        ∧ (handleDeath st).1.stats.powerUpsCollected = st.stats.powerUpsCollected
        ∧ (handleDeath st).1.stats.timeElapsed = st.stats.timeElapsed
        ∧ (handleDeath st).1.stats.highScore = st.stats.highScore
        ∧ (handleDeath st).2 = [Event.collision "death"])
    ∧ (st.stats.lives - 1 ≤ 0 →
        (handleDeath st).1.state = GState.gameOver
        ∧ (handleDeath st).2
            = [Event.collision "death", Event.gameOver (handleDeath st).1.stats]
        ∧ (handleDeath st).1.stats = { st.stats with lives := st.stats.lives - 1 }) := by
  by_cases h : st.stats.lives - 1 ≤ 0
  · have h' : ¬ (0 < st.stats.lives - 1) := by omega
    exact ⟨by simp [handleDeath, gameOver, h], fun hc => absurd hc h',
      fun _ => by simp [handleDeath, gameOver, h]⟩
  · exact ⟨by simp [handleDeath, resetSnakePosition, h],
      fun _ => by simp [handleDeath, resetSnakePosition, h], fun hc => absurd hc h⟩

/-- C2 witness: with 3 lives (normal difficulty) a death respawns the snake and
keeps food, obstacles and the other stats; with 1 life (insane difficulty) a
death immediately reaches GameOver and emits GAME_OVER carrying the death-time
stats. -/
theorem handleDeath_policy_witness :
    ((handleDeath (mkEngine cfgN)).1.stats.lives = 2
      ∧ (handleDeath (mkEngine cfgN)).1.snake.segments
          = initialSegments (mkEngine cfgN).config.gridSize
      ∧ (handleDeath (mkEngine cfgN)).1.state = (mkEngine cfgN).state)
    ∧ ((handleDeath (mkEngine cfgInsane)).1.state = GState.gameOver
      ∧ (handleDeath (mkEngine cfgInsane)).2
          = [Event.collision "death",
             Event.gameOver (handleDeath (mkEngine cfgInsane)).1.stats]) := by
  have h1 := handleDeath_policy (mkEngine cfgN)
  have h2 := handleDeath_policy (mkEngine cfgInsane)
  have h1' := h1.2.1 (by decide)
  have h2' := h2.2.2 (by decide)
  exact ⟨⟨by rw [h1.1]; decide, h1'.2.1, h1'.1⟩, ⟨h2'.1, h2'.2.1⟩⟩

/-- `checkCollision` does not depend on the snake's `direction` field. -/
theorem checkCollision_update_direction (st : EngineState) (d : Dir) (pos : Pos) :
    checkCollision { st with snake := { st.snake with direction := d } } pos
      = checkCollision st pos := rfl

/-- The ghost-wall branch of `updateGameLogic` in full: when the active effect is
of ghost type and the candidate head classifies as wall, the tick commits the
queued direction, conses the wrapped head, drops the tail, and changes nothing
else — in particular the single collision result (computed at the pre-wrap
position) drives every later branch, so no death, food, or power-up handling
runs at the wrapped cell, and no event is emitted. -/
theorem updateGameLogic_ghost_wall (st : EngineState) (o : Oracle)
    (hg : activeType st = some PowerUpType.ghost) (p : Pos)
    (hw : checkCollision st (candidateHead st) = CollisionResult.wall p) :
    updateGameLogic st o =
      ({ st with snake := { st.snake with
            direction := st.snake.nextDirection
            segments := (wrapPosition (candidateHead st) st.config.gridSize
                          :: st.snake.segments).dropLast } }, []) := by
  have hw' := hw
  simp only [candidateHead] at hw'
  simp only [updateGameLogic, candidateHead, checkCollision_update_direction]
  rw [hw']
  simp [CollisionResult.tag, activeType] at hg ⊢
  simp [hg]

/-- C3: when the active effect is of ghost type and the candidate head position
classifies as wall, the head is wrapped modulo gridSize on each axis instead of
triggering death: lives, the game state and the event stream are untouched, the
new head is the wrapped position, and with gridSize = 25 an x of 25 wraps to 0
while an x of -1 wraps to 24. -/
theorem ghost_wall_wraps_instead_of_death (st : EngineState) (o : Oracle) (p : Pos)
    (hg : activeType st = some PowerUpType.ghost)
    (hw : checkCollision st (candidateHead st) = CollisionResult.wall p)
    (hne : st.snake.segments ≠ []) :
    (updateGameLogic st o).1.snake.segments.headD ⟨0, 0⟩
        = wrapPosition (candidateHead st) st.config.gridSize
    ∧ (updateGameLogic st o).1.stats.lives = st.stats.lives
    ∧ (updateGameLogic st o).1.state = st.state
    ∧ (updateGameLogic st o).2 = []
    ∧ (∀ y : Int, (wrapPosition ⟨25, y⟩ 25).x = 0 ∧ (wrapPosition ⟨-1, y⟩ 25).x = 24) := by
  have hhead : ∀ (w : Pos) (l : List Pos), l ≠ [] → ((w :: l).dropLast.headD ⟨0, 0⟩) = w := by
    intro w l hl
    cases l with
    | nil => exact absurd rfl hl
    | cons a t => simp
  rw [updateGameLogic_ghost_wall st o hg p hw]
  refine ⟨hhead _ _ hne, rfl, rfl, rfl, ?_⟩
  intro y
  constructor
  · simp [wrapPosition]
  · simp only [wrapPosition]
    decide

/-- C3 witness: a ghost-affected snake with head `(24, 12)` on the 25-grid moving
right wraps to head `(0, 12)` — lives stay at 3 and no event (in particular no
death) fires. -/
theorem ghost_wall_wraps_instead_of_death_witness :
    (updateGameLogic ghostWallState oracle0).1.snake.segments.headD ⟨0, 0⟩ = ⟨0, 12⟩
    ∧ (updateGameLogic ghostWallState oracle0).1.stats.lives = 3
    ∧ (updateGameLogic ghostWallState oracle0).2 = [] := by
  have h := ghost_wall_wraps_instead_of_death ghostWallState oracle0 ⟨25, 12⟩
    (by decide) (by decide) (by decide)
  exact ⟨by rw [h.1]; decide, by rw [h.2.1]; decide, h.2.2.2.1⟩

/-- C9: in the ghost-wall branch the wrapped head is appended without re-running
collision classification at the wrapped cell: whatever occupies that cell, the
move is committed as a normal move (tail dropped), the food, power-ups,
obstacles, active effect and the whole stats record are unchanged, and no event
is emitted — no death, no food consumption, no power-up collection. -/
theorem ghost_wrap_no_reclassification (st : EngineState) (o : Oracle) (p : Pos)
    (hg : activeType st = some PowerUpType.ghost)
    (hw : checkCollision st (candidateHead st) = CollisionResult.wall p) :
    (updateGameLogic st o).1.snake.segments
        = (wrapPosition (candidateHead st) st.config.gridSize :: st.snake.segments).dropLast
    ∧ (updateGameLogic st o).1.food = st.food
    ∧ (updateGameLogic st o).1.powerUps = st.powerUps
    ∧ (updateGameLogic st o).1.obstacles = st.obstacles
    ∧ (updateGameLogic st o).1.activePowerUp = st.activePowerUp
    ∧ (updateGameLogic st o).1.stats = st.stats
    ∧ (updateGameLogic st o).2 = [] := by
  rw [updateGameLogic_ghost_wall st o hg p hw]
  exact ⟨rfl, rfl, rfl, rfl, rfl, rfl, rfl⟩

/-- C9 witness: with the wrapped cell `(0, 12)` simultaneously holding the live
food and an obstacle, the ghost-wrapped move still only moves the snake — the
food survives, the snake does not grow, the stats are untouched. -/
theorem ghost_wrap_no_reclassification_witness :
    (updateGameLogic ghostWallOccupiedState oracle0).1.snake.segments
        = [⟨0, 12⟩, ⟨24, 12⟩, ⟨23, 12⟩]
    ∧ (updateGameLogic ghostWallOccupiedState oracle0).1.food
        = some ⟨⟨0, 12⟩, 10, FoodKind.normal⟩
    ∧ (updateGameLogic ghostWallOccupiedState oracle0).1.stats
        = ghostWallOccupiedState.stats := by
  have h := ghost_wrap_no_reclassification ghostWallOccupiedState oracle0 ⟨25, 12⟩
    (by decide) (by decide)
  exact ⟨by rw [h.1]; decide, by rw [h.2.1]; decide, h.2.2.2.2.2.1⟩

/-- The obstacle-generation loop never touches the stats. -/
theorem generateObstaclesLoop_stats (o : Oracle) (mc : ℚ) :
    ∀ n i st, (generateObstaclesLoop o mc n i st).stats = st.stats := by
  intro n
  induction n with
  | zero => intro i st; rfl
  | succ k ih =>
    intro i st
    simp only [generateObstaclesLoop]
    split
    · rfl
    · exact ih (i + 1) _

/-- The obstacle-generation loop never touches the snake. -/
theorem generateObstaclesLoop_snake (o : Oracle) (mc : ℚ) :
    ∀ n i st, (generateObstaclesLoop o mc n i st).snake = st.snake := by
  intro n
  induction n with
  | zero => intro i st; rfl
  | succ k ih =>
    intro i st
    simp only [generateObstaclesLoop]
    split
    · rfl
    · exact ih (i + 1) _

theorem generateObstacles_stats (st : EngineState) (o : Oracle) :
    (generateObstacles st o).stats = st.stats := by
  simp only [generateObstacles]
  rw [generateObstaclesLoop_stats]

theorem generateObstacles_snake (st : EngineState) (o : Oracle) :
    (generateObstacles st o).snake = st.snake := by
  simp only [generateObstacles]
  rw [generateObstaclesLoop_snake]

theorem spawnFood_stats (st : EngineState) (o : Oracle) :
    (spawnFood st o).stats = st.stats := by
  simp only [spawnFood]
  split <;> rfl

theorem spawnFood_snake (st : EngineState) (o : Oracle) :
    (spawnFood st o).snake = st.snake := by
  simp only [spawnFood]
  split <;> rfl

theorem spawnPowerUp_stats (st : EngineState) (o : Oracle) :
    (spawnPowerUp st o).stats = st.stats := by
  simp only [spawnPowerUp]
  split_ifs <;> rfl

theorem spawnPowerUp_snake (st : EngineState) (o : Oracle) :
    (spawnPowerUp st o).snake = st.snake := by
  simp only [spawnPowerUp]
  split_ifs <;> rfl

theorem levelUp_stats (st : EngineState) (nl : Int) (o : Oracle) :
    (levelUp st nl o).1.stats = { st.stats with level := nl } := by
  simp only [levelUp]
  rw [generateObstacles_stats]

theorem levelUp_snake (st : EngineState) (nl : Int) (o : Oracle) :
    (levelUp st nl o).1.snake = st.snake := by
  simp only [levelUp]
  rw [generateObstacles_snake]

/-- The combo and score after `eatFood`: combo by the window rule, score by the
`calculateScore` formula applied at the updated combo and the pre-pickup level. -/
theorem eatFood_combo_score (st : EngineState) (o : Oracle) (f : Food)
    (hf : st.food = some f) :
    (eatFood st o).1.stats.combo
        = (if o.now - st.lastFoodTime < COMBO_TIME_WINDOW
           then min (st.stats.combo + 1) MAX_COMBO else 1)
    ∧ (eatFood st o).1.stats.score
        = st.stats.score
          + calculateScore f.value
              (if o.now - st.lastFoodTime < COMBO_TIME_WINDOW
               then min (st.stats.combo + 1) MAX_COMBO else 1)
              st.stats.level := by
  simp only [eatFood, hf]
  split_ifs <;>
    simp [spawnPowerUp_stats, spawnFood_stats, levelUp_stats]

/-- C4: every food consumption increments the score by exactly
`floor(foodValue * combo * (1 + level * 0.1))`, evaluated at the post-update
combo and the pre-pickup level; in particular with foodValue = 10, combo = 1,
level = 1 the increment is 11. -/
theorem eatFood_score_formula (st : EngineState) (o : Oracle) (f : Food)
    (hf : st.food = some f) :
    (eatFood st o).1.stats.score
        = st.stats.score
          + ⌊(f.value : ℚ) * (((eatFood st o).1.stats.combo : Int) : ℚ)
              * (1 + (st.stats.level : ℚ) * (1/10))⌋
    ∧ calculateScore 10 1 1 = 11 := by
  obtain ⟨hc, hs⟩ := eatFood_combo_score st o f hf
  constructor
  · rw [hs, hc]
    rfl
  · norm_num [calculateScore]

/-- C4 witness: in `foodState` (foodValue 10, combo updated to 5, level 1) the
pickup at time 1000 adds `floor(10 * 5 * 1.1) = 55` points, and the spec's
example `calculateScore 10 1 1 = 11` holds. -/
theorem eatFood_score_formula_witness :
    (eatFood foodState oracle0).1.stats.score = 55
    ∧ calculateScore 10 1 1 = 11 := by
  have h := eatFood_score_formula foodState oracle0 ⟨⟨7, 7⟩, 10, FoodKind.normal⟩ rfl
  have hc := (eatFood_combo_score foodState oracle0 ⟨⟨7, 7⟩, 10, FoodKind.normal⟩ rfl).1
  constructor
  · rw [h.1, hc]
    norm_num [foodState, mkEngine, cfgS, oracle0, COMBO_TIME_WINDOW, MAX_COMBO, min_def]
  · exact h.2

/-- C5: for consecutive food pickups, if the time since the previous pickup is
strictly below the fixed combo window the combo is incremented by one and capped
at the maximum, otherwise it is reset to 1. -/
theorem eatFood_combo_rule (st : EngineState) (o : Oracle) (f : Food)
    (hf : st.food = some f) :
    (o.now - st.lastFoodTime < COMBO_TIME_WINDOW →
        (eatFood st o).1.stats.combo = min (st.stats.combo + 1) MAX_COMBO)
    ∧ (COMBO_TIME_WINDOW ≤ o.now - st.lastFoodTime →
        (eatFood st o).1.stats.combo = 1) := by
  obtain ⟨hc, -⟩ := eatFood_combo_score st o f hf
  constructor <;> intro h <;> rw [hc]
  · simp [h]
  · simp [not_lt.mpr h]

/-- C5 witness: in `foodState` a pickup 1000 ms after the previous one (window
2000 ms) raises the combo from 4 to 5, while a pickup 5000 ms after resets it
to 1. -/
theorem eatFood_combo_rule_witness :
    (eatFood foodState oracle0).1.stats.combo = 5
    ∧ (eatFood foodState { oracle0 with now := 5000 }).1.stats.combo = 1 := by
  have h1 := (eatFood_combo_rule foodState oracle0
    ⟨⟨7, 7⟩, 10, FoodKind.normal⟩ rfl).1 (by decide)
  have h2 := (eatFood_combo_rule foodState { oracle0 with now := 5000 }
    ⟨⟨7, 7⟩, 10, FoodKind.normal⟩ rfl).2 (by decide)
  refine ⟨?_, h2⟩
  rw [h1]
  norm_num [foodState, mkEngine, cfgS, MAX_COMBO, min_def]

/-- C6: collecting a speed power-up halves the current move interval with floor
20; collecting a slow power-up doubles it with ceiling 300; when the active
effect's elapsed time reaches its duration, `updatePowerUps` empties the
active-effect slot and reverts the multiplier — speed reversal doubles the
interval capped at the difficulty's base interval, slow reversal halves it
floored at the base interval. -/
theorem powerUp_speed_slow_rules (st : EngineState) (pu : PowerUp) (o : Oracle)
    (a : ActivePowerUp) :
    (pu.ptype = PowerUpType.speed →
        (collectPowerUp st pu o).1.currentSpeed = max (st.currentSpeed * (1/2)) 20)
    ∧ (pu.ptype = PowerUpType.slow →
        (collectPowerUp st pu o).1.currentSpeed = min (st.currentSpeed * 2) 300)
    ∧ (st.activePowerUp = some a → a.duration ≤ o.now - a.startTime →
        (updatePowerUps st o).activePowerUp = Option.none
        ∧ (a.ptype = PowerUpType.speed →
            (updatePowerUps st o).currentSpeed
              = min (st.currentSpeed * 2) (SPEED_CONFIG st.config.difficulty).initial)
        ∧ (a.ptype = PowerUpType.slow →
            (updatePowerUps st o).currentSpeed
              = max (st.currentSpeed * (1/2)) (SPEED_CONFIG st.config.difficulty).initial)) := by
  refine ⟨fun hp => ?_, fun hp => ?_, fun ha hd => ⟨?_, fun hp => ?_, fun hp => ?_⟩⟩
  · simp [collectPowerUp, hp]
  · simp [collectPowerUp, hp]
  · simp [updatePowerUps, ha, hd]
  · simp [updatePowerUps, ha, hd, hp]
  · simp [updatePowerUps, ha, hd, hp]

/-- C6 witness: at base interval 100 a speed pickup yields 50 and a slow pickup
yields 200; an expired speed effect at interval 50 reverts to 100 and empties
the active slot, and an expired slow effect at interval 200 reverts to 100. -/
theorem powerUp_speed_slow_rules_witness :
    (collectPowerUp (mkEngine cfgN) speedPowerUp oracle0).1.currentSpeed = 50
    ∧ (collectPowerUp (mkEngine cfgN) slowPowerUp oracle0).1.currentSpeed = 200
    ∧ (updatePowerUps speedActiveState { oracle0 with now := 5000 }).activePowerUp
        = Option.none
    ∧ (updatePowerUps speedActiveState { oracle0 with now := 5000 }).currentSpeed = 100
    ∧ (updatePowerUps slowActiveState { oracle0 with now := 5000 }).currentSpeed = 100 := by
  have h1 := powerUp_speed_slow_rules (mkEngine cfgN) speedPowerUp oracle0
    ⟨PowerUpType.speed, 5000, 0⟩
  have h2 := powerUp_speed_slow_rules (mkEngine cfgN) slowPowerUp oracle0
    ⟨PowerUpType.speed, 5000, 0⟩
  have h3 := (powerUp_speed_slow_rules speedActiveState speedPowerUp
    { oracle0 with now := 5000 } ⟨PowerUpType.speed, 5000, 0⟩).2.2 rfl (by decide)
  have h4 := (powerUp_speed_slow_rules slowActiveState speedPowerUp
    { oracle0 with now := 5000 } ⟨PowerUpType.slow, 5000, 0⟩).2.2 rfl (by decide)
  refine ⟨?_, ?_, h3.1, ?_, ?_⟩
  · rw [h1.1 rfl]
    norm_num [mkEngine, cfgN, SPEED_CONFIG, max_def]
  · rw [h2.2.1 rfl]
    norm_num [mkEngine, cfgN, SPEED_CONFIG, min_def]
  · rw [h3.2.1 rfl]
    norm_num [speedActiveState, mkEngine, cfgN, SPEED_CONFIG, min_def]
  · rw [h4.2.2 rfl]
    norm_num [slowActiveState, mkEngine, cfgN, SPEED_CONFIG, max_def]

/-- C7 counterexample: the snake snapshot is not independent of engine state —
`getSnake` copies the `segments` array by reference, so emptying the snapshot's
segments array changes the segments the engine itself reads. -/
theorem getSnake_not_independent :
    readSegments (snakeHeap0.write (getSnake engineSnake0).segments []) engineSnake0
      ≠ readSegments snakeHeap0 engineSnake0 := by
  simp [readSegments, ArrayStore.write, getSnake, snakeHeap0, engineSnake0]

/-- C7 amended: each getter returns a fresh top-level object, but the copy is
shallow — the snake snapshot's `segments` field aliases the engine's segments
array, so any in-place mutation through the snapshot's reference is visible to
the engine. -/
theorem getSnake_shallow_aliasing (h : ArrayStore) (s : SnakeObj) (v : List Pos) :
    (getSnake s).segments = s.segments
    ∧ readSegments (h.write (getSnake s).segments v) s = v := by
  exact ⟨rfl, by simp [readSegments, ArrayStore.write, getSnake]⟩

/-- C8: `changeDirection` ignores an argument that is the exact opposite of the
current direction (no error, no state change, the queued `nextDirection` kept),
and for any non-opposite argument sets `nextDirection` to it, leaving everything
else unchanged; "exact opposite" means both components are negated. -/
theorem changeDirection_rules (st : EngineState) (d : Dir) :
    (areOppositeDirections d st.snake.direction = true → changeDirection st d = st)
    ∧ (areOppositeDirections d st.snake.direction = false →
        (changeDirection st d).snake.nextDirection = d
        ∧ (changeDirection st d).snake.direction = st.snake.direction
        ∧ (changeDirection st d).snake.segments = st.snake.segments
        ∧ (changeDirection st d).snake.length = st.snake.length
        ∧ (changeDirection st d).state = st.state
        ∧ (changeDirection st d).stats = st.stats)
    ∧ (areOppositeDirections d st.snake.direction = true
        ↔ d.x = -st.snake.direction.x ∧ d.y = -st.snake.direction.y) := by
  refine ⟨fun h => by simp [changeDirection, h],
    fun h => by simp [changeDirection, h], ?_⟩
  simp [areOppositeDirections]

/-- C8 witness: on a fresh engine facing right, a left input (the exact
opposite) is ignored wholesale, while an up input is queued into
`nextDirection`. -/
theorem changeDirection_rules_witness :
    changeDirection (mkEngine cfgN) DIR_LEFT = mkEngine cfgN
    ∧ (changeDirection (mkEngine cfgN) DIR_UP).snake.nextDirection = DIR_UP := by
  have h1 := changeDirection_rules (mkEngine cfgN) DIR_LEFT
  have h2 := changeDirection_rules (mkEngine cfgN) DIR_UP
  exact ⟨h1.1 (by decide), (h2.2.1 (by decide)).1⟩

theorem eatFood_snake (st : EngineState) (o : Oracle) :
    (eatFood st o).1.snake = st.snake := by
  cases hf : st.food with
  | none => simp [eatFood, hf]
  | some f =>
    simp only [eatFood, hf]
    split_ifs <;> simp [spawnPowerUp_snake, spawnFood_snake, levelUp_snake]

theorem collectPowerUp_length (st : EngineState) (pu : PowerUp) (o : Oracle) :
    (collectPowerUp st pu o).1.snake.length = st.snake.length := by
  simp only [collectPowerUp]
  cases hp : pu.ptype <;> simp [hp]
  split <;> rfl

theorem updatePowerUps_snake (st : EngineState) (o : Oracle) :
    (updatePowerUps st o).snake = st.snake := by
  simp only [updatePowerUps]
  cases ha : st.activePowerUp with
  | none => rfl
  | some a =>
    dsimp only
    split_ifs <;> rfl

theorem updateObstacles_snake (st : EngineState) :
    (updateObstacles st).snake = st.snake := rfl

theorem handleDeath_length (st : EngineState) :
    (handleDeath st).1.snake.length = st.snake.length := by
  simp only [handleDeath, gameOver, resetSnakePosition]
  split_ifs <;> rfl

theorem updateGameLogic_length (st : EngineState) (o : Oracle) :
    (updateGameLogic st o).1.snake.length = st.snake.length := by
  simp only [updateGameLogic]
  repeat' split
  all_goals simp [handleDeath_length, eatFood_snake, collectPowerUp_length]

theorem update_length (st : EngineState) (dt : ℚ) (o : Oracle) :
    (update st dt o).1.snake.length = st.snake.length := by
  simp only [update]
  repeat' split
  all_goals
    simp [updateGameLogic_length, updatePowerUps_snake, updateObstacles_snake]

theorem changeDirection_length (st : EngineState) (d : Dir) :
    (changeDirection st d).snake.length = st.snake.length := by
  simp only [changeDirection]
  split <;> rfl

theorem init_length (st : EngineState) (o : Oracle) :
    (init st o).snake.length = INITIAL_SNAKE_LENGTH := by
  simp only [init]
  rw [generateObstacles_snake, spawnFood_snake]
  rfl

/-- C10: the snake's `length` field is written only by the constructor and
`reset`, both of which store the initial snake length 3, and is never updated
afterward — on every state reachable through the public interface
(`getSnake().length` returns this very field of a shallow snapshot) it equals
`INITIAL_SNAKE_LENGTH = 3`, however many segments the snake has gained from food
or lost to the shrink effect. -/
theorem snake_length_field_constant (st : EngineState) (hr : Reach st) :
    st.snake.length = INITIAL_SNAKE_LENGTH := by
  induction hr with
  | mk config => rfl
  | step hr hc ih =>
    cases hc with
    | update dt o => rw [update_length]; exact ih
    | changeDirection d => rw [changeDirection_length]; exact ih
    | setState s => exact ih
    | init o => exact init_length _ o

/-- C10 witness: after setting the engine playing and running one 100 ms update
(which moves the snake one step), the reachable state still carries
`length = 3`. -/
theorem snake_length_field_constant_witness :
    (update (setState (mkEngine cfgN) GState.playing) 100 oracle0).1.snake.length
      = INITIAL_SNAKE_LENGTH := by
  exact snake_length_field_constant _
    (Reach.step (Reach.step (Reach.mk cfgN) (EngineCall.setState _ GState.playing))
      (EngineCall.update _ 100 oracle0))

end SnakeGame
